import Mathlib

set_option maxHeartbeats 1000000
set_option maxRecDepth 100000

namespace AiMenu

/-! Shallow embedding of the menu-generation core of `src/app/api/generate-menu/route.ts`.
    JavaScript numbers are modelled as exact integers (`Nat`); `JSON.parse` is modelled
    by an executable JSON parser returning `Option Json`; thrown exceptions that the
    source catches locally are modelled as `none`/`Option` results. -/

/-- JSON values as produced by `JSON.parse`.  Number values keep their source lexeme
    (no numeric semantics of the payload is ever inspected by the code under study). -/
inductive Json where
  | null : Json
  | bool : Bool → Json
  | num : String → Json
  | str : String → Json
  | arr : List Json → Json
  | obj : List (String × Json) → Json

/-- The character \x7b, kept out of character-literal syntax. -/
def lbrace : Char := Char.ofNat 123

/-- The character \x7d, kept out of character-literal syntax. -/
def rbrace : Char := Char.ofNat 125

/-- The double-quote character. -/
def dquote : Char := Char.ofNat 34

/-- The backslash character. -/
def bslash : Char := Char.ofNat 92

/-- JSON whitespace: space, tab, line feed, carriage return. -/
def isJsonWs (c : Char) : Bool :=
  c == ' ' || c == Char.ofNat 9 || c == Char.ofNat 10 || c == Char.ofNat 13

/-- Skip JSON whitespace. -/
def skipWs (s : List Char) : List Char :=
  s.dropWhile isJsonWs

/-- Value of a hexadecimal digit. -/
def hexVal (c : Char) : Option Nat :=
  let n := c.toNat
  if 48 ≤ n ∧ n ≤ 57 then some (n - 48)
  else if 65 ≤ n ∧ n ≤ 70 then some (n - 55)
  else if 97 ≤ n ∧ n ≤ 102 then some (n - 87)
  else none

/-- Single-character JSON string escapes. -/
def escChar (c : Char) : Option Char :=
  if c = dquote then some dquote
  else if c = bslash then some bslash
  else if c = '/' then some '/'
  else if c = 'b' then some (Char.ofNat 8)
  else if c = 'f' then some (Char.ofNat 12)
  else if c = 'n' then some (Char.ofNat 10)
  else if c = 'r' then some (Char.ofNat 13)
  else if c = 't' then some (Char.ofNat 9)
  else none

/-- Parse the body of a JSON string (the opening quote already consumed),
    returning the decoded string and the remaining input. -/
def parseStringBody : List Char → List Char → Option (String × List Char)
  | [], _ => none
  | c :: rest, acc =>
    if c = dquote then some (String.mk acc.reverse, rest)
    else if c = bslash then
      match rest with
      | [] => none
      | e :: rest2 =>
        if e = 'u' then
          match rest2 with
          | h1 :: h2 :: h3 :: h4 :: rest3 =>
            match hexVal h1, hexVal h2, hexVal h3, hexVal h4 with
            | some a, some b, some c2, some d =>
              parseStringBody rest3 (Char.ofNat (((a * 16 + b) * 16 + c2) * 16 + d) :: acc)
            | _, _, _, _ => none
          | _ => none
        else
          match escChar e with
          | some ec => parseStringBody rest2 (ec :: acc)
          | none => none
    else if c.toNat < 32 then none
    else parseStringBody rest (c :: acc)

/-- Decimal digit test. -/
def isDigit (c : Char) : Bool := 48 ≤ c.toNat && c.toNat ≤ 57

/-- Optional fraction part of a JSON number. -/
def parseFrac (s : List Char) : Option (List Char × List Char) :=
  match s with
  | c :: rest =>
    if c = '.' then
      let p := List.span isDigit rest
      if p.1.isEmpty then none else some (c :: p.1, p.2)
    else some ([], s)
  | [] => some ([], [])

/-- Optional exponent part of a JSON number. -/
def parseExp (s : List Char) : Option (List Char × List Char) :=
  match s with
  | c :: rest =>
    if c = 'e' ∨ c = 'E' then
      let q := match rest with
        | d :: r2 => if d = '+' ∨ d = '-' then (([d] : List Char), r2) else (([] : List Char), rest)
        | [] => (([] : List Char), rest)
      let p := List.span isDigit q.2
      if p.1.isEmpty then none else some (c :: q.1 ++ p.1, p.2)
    else some ([], s)
  | [] => some ([], [])

/-- Lex a JSON number (grammar of RFC 8259), returning the lexeme and the rest. -/
def parseNumLex (s : List Char) : Option (List Char × List Char) :=
  let m := match s with
    | c :: rest => if c = '-' then (([c] : List Char), rest) else (([] : List Char), s)
    | [] => (([] : List Char), ([] : List Char))
  match m.2 with
  | [] => none
  | c :: rest =>
    if c = '0' then
      match parseFrac rest with
      | none => none
      | some (fr, rest2) =>
        match parseExp rest2 with
        | none => none
        | some (ex, rest3) => some (m.1 ++ c :: (fr ++ ex), rest3)
    else if isDigit c then
      let p := List.span isDigit rest
      match parseFrac p.2 with
      | none => none
      | some (fr, rest2) =>
        match parseExp rest2 with
        | none => none
        | some (ex, rest3) => some (m.1 ++ c :: (p.1 ++ fr ++ ex), rest3)
    else none

/-- JavaScript object-member assignment: a repeated key overwrites the earlier value
    in place, otherwise the pair is appended. -/
def objSet : List (String × Json) → String → Json → List (String × Json)
  | [], k, v => [(k, v)]
  | (k0, v0) :: rest, k, v =>
    if k0 = k then (k, v) :: rest else (k0, v0) :: objSet rest k v

/-- Property lookup on a member list. -/
def lookupKey : List (String × Json) → String → Option Json
  | [], _ => none
  | (k0, v) :: rest, k => if k0 = k then some v else lookupKey rest k

/-- JavaScript property access `j[k]` (absent property reads as `none`, i.e. undefined). -/
def jget (j : Json) (k : String) : Option Json :=
  match j with
  | Json.obj kvs => lookupKey kvs k
  | _ => none

mutual

/-- Fuel-indexed parser for one JSON value (leading whitespace allowed). -/
def parseVal : Nat → List Char → Option (Json × List Char)
  | 0, _ => none
  | Nat.succ fuel, s =>
    match skipWs s with
    | [] => none
    | c :: rest =>
      if c = lbrace then
        match skipWs rest with
        | d :: rest2 =>
          if d = rbrace then some (Json.obj [], rest2)
          else parseMembers fuel (skipWs rest) []
        | [] => none
      else if c = '[' then
        match skipWs rest with
        | d :: rest2 =>
          if d = ']' then some (Json.arr [], rest2)
          else parseItems fuel (skipWs rest) []
        | [] => none
      else if c = dquote then
        match parseStringBody rest [] with
        | some (s0, rest2) => some (Json.str s0, rest2)
        | none => none
      else if c = 't' then
        match rest with
        | 'r' :: 'u' :: 'e' :: rest2 => some (Json.bool true, rest2)
        | _ => none
      else if c = 'f' then
        match rest with
        | 'a' :: 'l' :: 's' :: 'e' :: rest2 => some (Json.bool false, rest2)
        | _ => none
      else if c = 'n' then
        match rest with
        | 'u' :: 'l' :: 'l' :: rest2 => some (Json.null, rest2)
        | _ => none
      else if c = '-' ∨ isDigit c then
        match parseNumLex (c :: rest) with
        | some (lex, rest2) => some (Json.num (String.mk lex), rest2)
        | none => none
      else none

/-- Parse the members of a JSON object (position: at a key, opening brace consumed). -/
def parseMembers : Nat → List Char → List (String × Json) → Option (Json × List Char)
  | 0, _, _ => none
  | Nat.succ fuel, s, acc =>
    match skipWs s with
    | c :: rest =>
      if c = dquote then
        match parseStringBody rest [] with
        | some (k, rest2) =>
          match skipWs rest2 with
          | d :: rest3 =>
            if d = ':' then
              match parseVal fuel rest3 with
              | some (v, rest4) =>
                match skipWs rest4 with
                | e :: rest5 =>
                  if e = ',' then parseMembers fuel rest5 (objSet acc k v)
                  else if e = rbrace then some (Json.obj (objSet acc k v), rest5)
                  else none
                | [] => none
              | none => none
            else none
          | [] => none
        | none => none
      else none
    | [] => none

/-- Parse the items of a JSON array (position: at a value, opening bracket consumed). -/
def parseItems : Nat → List Char → List Json → Option (Json × List Char)
  | 0, _, _ => none
  | Nat.succ fuel, s, acc =>
    match parseVal fuel s with
    | some (v, rest) =>
      match skipWs rest with
      | e :: rest2 =>
        if e = ',' then parseItems fuel rest2 (acc ++ [v])
        else if e = ']' then some (Json.arr (acc ++ [v]), rest2)
        else none
      | [] => none
    | none => none

end

/-- Model of `JSON.parse`: parse one value, reject trailing garbage.
    The fuel `2 * length + 2` strictly dominates the recursion depth of any input,
    so no input is rejected for lack of fuel. -/
def jsonParse (content : String) : Option Json :=
  match parseVal (2 * content.length + 2) content.data with
  | some (j, rest) => if (skipWs rest).isEmpty then some j else none
  | none => none

/-- The regex match of `/\x7b[\s\S]*\x7d/` in `parseMenuResponse`: the substring from
    the first opening brace to the last closing brace, when such a span exists. -/
def extractBraced (s : List Char) : Option (List Char) :=
  let t := s.dropWhile (fun c => c != lbrace)
  let u := (t.reverse.dropWhile (fun c => c != rbrace)).reverse
  if u.isEmpty then none else some u

/-- The five required day keys, in source order. -/
def weekDays : List String := ["monday", "tuesday", "wednesday", "thursday", "friday"]

/-- The source check `!menuData[day] || !Array.isArray(menuData[day])`, i.e. the day
    key is present and its value is an array (every falsy JSON value also fails
    `Array.isArray`, so the conjunction collapses to the array test). -/
def dayIsArray (menuData : Json) (day : String) : Bool :=
  match jget menuData day with
  | some (Json.arr _) => true
  | _ => false

/-- All five day keys are present and array-valued. -/
def validWeekMenu (menuData : Json) : Bool :=
  weekDays.all (fun day => dayIsArray menuData day)

/-- `parseMenuResponse` from the source: extract the brace-delimited span, decode it,
    check the five day keys, and return the decoded object unchanged; every failure
    (no span, decode error, failed check) is caught and becomes `none`. -/
def parseMenuResponse (content : String) : Option Json :=
  match extractBraced content.data with
  | none => none
  | some u =>
    match jsonParse (String.mk u) with
    | none => none
    | some menuData => if validWeekMenu menuData then some menuData else none

/-! ## Quota Calculator -/

/-- `Math.round` on the exact non-negative rational `num / den` (JavaScript rounds
    half up, which on non-negative values is also half away from zero). -/
def mathRound (num den : Nat) : Nat := (2 * num + den) / (2 * den)

/-- Round half away from zero on the non-negative rational `num / den`, stated the
    way the spec words it (used to compare against the source's `Math.round`). -/
def roundHalfAwayFromZero (num den : Nat) : Nat :=
  num / den + (if den ≤ 2 * (num % den) then 1 else 0)

/-- `(canteen.hotDishCount + canteen.coldDishCount) * 5`. -/
def totalDishesPerWeek (hotDishCount coldDishCount : Nat) : Nat :=
  (hotDishCount + coldDishCount) * 5

/-- `Math.round(totalDishesPerWeek * params.historicalRatio / 100)`. -/
def historicalDishCount (hotDishCount coldDishCount historicalRatio : Nat) : Nat :=
  mathRound (totalDishesPerWeek hotDishCount coldDishCount * historicalRatio) 100

/-- `totalDishesPerWeek - historicalDishCount`. -/
def originalDishCount (hotDishCount coldDishCount historicalRatio : Nat) : Nat :=
  totalDishesPerWeek hotDishCount coldDishCount -
    historicalDishCount hotDishCount coldDishCount historicalRatio

/-! ## Constraint Mapper: the lookup tables of `promptTemplate.parameterMappings` -/

/-- `parameterMappings.设备要求`. -/
def equipmentMapping : List (String × String) :=
  [("蒸屉", "蒸屉紧缺，不要出现蒸菜"),
   ("烤箱", "烤箱紧缺，不要出现烤菜"),
   ("炒锅", "炒锅紧缺，出现炒菜不超过(<=)2道"),
   ("炖锅", "炖锅紧缺，不要出现炖菜"),
   ("烧炉", "烧炉紧缺，不要出现烧菜"),
   ("无", "所有烹饪设备均充足，蒸屉、烤箱、砂锅、炖锅、烧炉的使用注重均衡协调")]

/-- `parameterMappings.菜品做工比例`. -/
def workRatioMapping : List (String × String) :=
  [("1:1:1", "现炒、一锅出、半成品的比例为1:1:1"),
   ("1:0.5:0.5", "现炒、一锅出、半成品的比例为1:0.5:0.5"),
   ("0.5:1:0.5", "现炒、一锅出、半成品的比例为0.5:1:0.5"),
   ("0.5:0.5:1", "现炒、一锅出、半成品的比例为0.5:0.5:1"),
   ("无要求", "")]

/-- `parameterMappings.人员配置`. -/
def staffMapping : List (String × String) :=
  [("scarce", "厨师人手紧缺，需要减少整体刀工复杂度，复杂刀工菜不超过20%"),
   ("abundant", "厨师人手宽裕，可以出20-33%复杂刀工菜品以体现技术")]

/-- `parameterMappings.辣味菜要求`. -/
def spicyMapping : List (String × String) :=
  [("none", "不要出现辣菜"),
   ("mild", "微辣，辣菜在总数量占比10-20%"),
   ("medium", "中辣，辣菜在总数量占比20-30%")]

/-- `parameterMappings.调味品多样性` (keyed by `flavorDiversity.toString()`). -/
def flavorMapping : List (String × String) :=
  [("true", "在酸、甜、苦、辣、咸、鲜、麻、香、清淡9种风味之中，每餐出现风味不少于5种"),
   ("false", "无要求")]

/-- `parameterMappings.原材料多样性`. -/
def ingredientMapping : List (String × String) :=
  [("4种", "一餐出品的原材料不少于4种"),
   ("5种", "一餐出品的原材料不少于5种"),
   ("6种", "一餐出品的原材料不少于6种"),
   ("无要求", "")]

/-- TypeScript object-literal property access on a string-keyed table:
    `none` models the `undefined` an unknown key reads as. -/
def lookupStr : List (String × String) → String → Option String
  | [], _ => none
  | (k0, v) :: rest, k => if k0 = k then some v else lookupStr rest k

/-- JavaScript template-literal interpolation of a possibly-undefined string:
    `undefined` renders as the text "undefined". -/
def jsInterp : Option String → String
  | some s => s
  | none => "undefined"

/-- The request parameters consumed by `buildPrompt` (`GenerationParams` in
    `src/types/index.ts`; enum-typed fields are runtime strings, since the request
    body is cast unchecked). -/
structure GenerationParams where
  mainMeatCount : Nat
  halfMeatCount : Nat
  vegetarianCount : Nat
  staffSituation : String
  historicalRatio : Nat
  equipmentShortage : List String
  spicyLevel : String
  flavorDiversity : Bool
  workRatio : String
  ingredientDiversity : String

/-- The mapped equipment fragments:
    `equipmentShortage.map(item => mappings[item]).filter(Boolean)` — entries whose
    lookup is `undefined` (unknown values), or whose text is empty, are dropped. -/
def equipmentFragments (shortage : List String) : List String :=
  (shortage.filterMap (fun item => lookupStr equipmentMapping item)).filter
    (fun s => ¬ s.isEmpty)

/-- The default equipment requirement used when `equipmentShortage` is empty. -/
def defaultEquipmentRequirement : String :=
  "所有烹饪设备均充足，蒸屉、烤箱、砂锅、炖锅、烧炉的使用注重均衡协调"

/-- The composed equipment requirement: default for an empty selection, otherwise
    the mapped fragments joined with `；`. -/
def equipmentRequirement (shortage : List String) : String :=
  if shortage.isEmpty then defaultEquipmentRequirement
  else String.intercalate "；" (equipmentFragments shortage)

/-! ## Instruction Composer: `buildPrompt`, split at the blank-line boundaries of the
    source template literal. -/

/-- `promptTemplate.systemPrompt`. -/
def systemPrompt : String :=
  "你是一位在中国团餐行业工作多年的经验丰富的厨师长。请严格按照以下【开菜规则】和【约束条件】，为团餐食堂生成一周五天的午餐菜谱。"

/-- `databases.原材料`. -/
def refIngredients : String :=
  "常用高频原材料：鸡蛋、茄子、南瓜、娃娃菜、土豆、冬瓜、小白菜、油菜、苦瓜、丝瓜、鲈鱼、草鱼、龙利鱼、虾仁、鸡胸肉、三黄鸡、鸡腿肉、五花肉、猪里脊肉、牛里脊、老豆腐、香菇等"

/-- `databases.烹饪方式`. -/
def refCookingMethods : String :=
  "主要烹饪方式：炒、熘、蒸、烧、烤、炖、煎、烹；辅助烹饪方式：炸、焗、煨、浇汁、烩、汆、灼、白灼、焖、淋、煲、卤、扒、熏、煮、煸、酿、爆、烹汁、汤、浸、拌、凉拌、溜"

/-- `databases.风味`. -/
def refFlavors : String :=
  "咸香、咸鲜、咸酸、蒜香、酸甜、香甜、葱香、咸辣、酸辣、辣、麻辣、甜辣、鲜辣、辣鲜、麻鲜、鲜香、醲香、香辣、孜然、复合、黑椒、酱香、酸香、甜、干香、咖喱、蜜汁、豉香、酒香、茄汁、奶香"

/-- The narrative opening of the prompt: the system prompt, the per-day counts, and
    the two 【重要】 quota paragraphs (template lines up to the 分散原则 paragraph). -/
def narrativeSection (hotDishCount coldDishCount : Nat) (params : GenerationParams) : String :=
  let total := totalDishesPerWeek hotDishCount coldDishCount
  let hist := historicalDishCount hotDishCount coldDishCount params.historicalRatio
  let orig := originalDishCount hotDishCount coldDishCount params.historicalRatio
  systemPrompt ++ "\n\n请为团餐食堂生成一周五天的午餐菜谱，每天包含" ++ toString hotDishCount ++
  "个热菜和" ++ toString coldDishCount ++ "个凉菜（这个条件必须严格遵守），其中热菜里面包含" ++
  toString params.mainMeatCount ++ "个主荤菜、" ++ toString params.halfMeatCount ++
  "个半荤菜、" ++ toString params.vegetarianCount ++
  "个素菜（这个也需要严格遵守）。\n\n【重要】严格控制历史菜单占比：整个一周菜单（共" ++
  toString total ++ "道菜）中，必须有且仅有" ++ toString hist ++
  "道菜来源于【历史菜单】，其余" ++ toString orig ++
  "道菜必须是全新的原创菜品，不能出现在【历史菜单】中。\n\n【重要】历史菜品分散原则：为了保证一周菜单的新鲜感和均衡性，请将这" ++
  toString hist ++
  "道历史菜品均匀地分散在周一到周五的菜单中，每天都要有一些历史菜和一些原创菜的搭配，避免某一天全是历史菜或某一天全是原创菜。让每一天的用餐者都能既品尝到经典的招牌菜（历史菜），又能尝试新的菜品（原创菜）。"

/-- The 【开菜规则】 block, with the mapped constraint fragments interpolated. -/
def rulesSection (params : GenerationParams) : String :=
  "【开菜规则】\n1. 设备可实现性：" ++ equipmentRequirement params.equipmentShortage ++
  "\n2. 成本控制：一餐避免重复出现高成本食材/菜品，如水产品、牛羊肉" ++
  "\n3. 菜品做工均衡：" ++ jsInterp (lookupStr workRatioMapping params.workRatio) ++
  "\n4. 食材多样性：一餐内，主要食材不得重复（例如：鸡翅、鸡腿、鸡胸、鸡爪是不同食材）" ++
  "\n5. 原材料多样性：" ++ jsInterp (lookupStr ingredientMapping params.ingredientDiversity) ++
  "\n6. 辣味菜数量要求：" ++ jsInterp (lookupStr spicyMapping params.spicyLevel) ++
  "\n7. 刀工多样性：" ++ jsInterp (lookupStr staffMapping params.staffSituation) ++
  "\n8. 调味品多样性：" ++
  jsInterp (lookupStr flavorMapping (if params.flavorDiversity then "true" else "false")) ++
  "\n9. 烹饪方式多样性：每周菜单必须出现炒、熘、蒸、烧、烤、炖、煎、烹8种烹饪方法中的至少六种" ++
  "\n10. 口感多样性：一餐不要出现超过两个勾芡菜"

/-- The 【参考数据】 block (static vocabularies). -/
def referenceSection : String :=
  "【参考数据】\n原材料：" ++ refIngredients ++ "\n烹饪方式：" ++ refCookingMethods ++
  "\n风味：" ++ refFlavors

/-- `historicalMenus.flat().slice(0, historicalDishCount + 10)`. -/
def historicalDishes (historicalMenus : List (List String)) (hist : Nat) : List String :=
  historicalMenus.flatten.take (hist + 10)

/-- The 【历史菜单】 block: the sampled historical dishes joined with `、`. -/
def historySection (historicalMenus : List (List String)) (hist : Nat) : String :=
  "【历史菜单】\n" ++ String.intercalate "、" (historicalDishes historicalMenus hist)

/-- The 【菜品分类定义】 block (static). -/
def categorySection : String :=
  "【菜品分类定义】\n主荤菜：以肉类/海鲜为主要食材，体现\x27硬菜\x27感觉的菜品，即使有配菜也算主荤（如可乐鸡翅、孜然羊排、红烧鲷鱼、土豆炖牛肉等）\n半荤菜：荤素搭配的菜品，荤菜和素菜比例相当（如青笋炒肉片、宫保鸡丁等）\n素菜：纯素食或以蔬菜为主的菜品\n凉菜：不区分荤素，一般以素食为主以控制成本"

/-- The 【分散策略建议】 block, with `Math.round(historicalDishCount / 5)`. -/
def spreadSection (hist : Nat) : String :=
  "【分散策略建议】\n为了最佳的用餐体验，建议每天安排大约" ++ toString (mathRound hist 5) ++
  "道左右的历史菜（可以有1-2道的浮动），让历史经典菜品和创新菜品在每一天都有合理的搭配。"

/-- The 【输出要求】 block: JSON format example and the numbered checklist restating
    the numeric targets. -/
def checklistSection (hotDishCount coldDishCount hist orig : Nat) : String :=
  "【输出要求】\n请严格按照JSON格式输出，包含周一到周五的菜单：\n\x7b\n  \"monday\": [\"菜品1(主荤)\", \"菜品2(半荤)\", \"菜品3(素菜)\", \"菜品4(凉菜)\"],\n  \"tuesday\": [\"菜品1(主荤)\", \"菜品2(半荤)\", \"菜品3(素菜)\", \"菜品4(凉菜)\"],\n  \"wednesday\": [\"菜品1(主荤)\", \"菜品2(半荤)\", \"菜品3(素菜)\", \"菜品4(凉菜)\"],\n  \"thursday\": [\"菜品1(主荤)\", \"菜品2(半荤)\", \"菜品3(素菜)\", \"菜品4(凉菜)\"],\n  \"friday\": [\"菜品1(主荤)\", \"菜品2(半荤)\", \"菜品3(素菜)\", \"菜品4(凉菜)\"]\n\x7d\n\n如果菜品来源于历史菜单，请额外标注(历史)，如：可乐鸡翅(主荤)(历史)\n\n请确保：\n1. 每天菜品数量严格等于" ++
  toString (hotDishCount + coldDishCount) ++ "道\n2. 每天热菜数量严格等于" ++
  toString hotDishCount ++ "道，凉菜数量严格等于" ++ toString coldDishCount ++
  "道\n3. 菜品分类标注准确\n4. 【最重要】整个一周菜单中，标注(历史)的菜品总数必须严格等于" ++
  toString hist ++ "道，不能多也不能少\n5. 原创菜品（不标注历史的）总数必须严格等于" ++
  toString orig ++ "道\n6. 【用户体验】每天都要有历史菜和原创菜的合理搭配，避免历史菜过分集中在某几天"

/-- `buildPrompt`: the whole template literal, assembled from its blank-line-separated
    blocks in source order. -/
def buildPrompt (hotDishCount coldDishCount : Nat) (params : GenerationParams)
    (historicalMenus : List (List String)) : String :=
  let hist := historicalDishCount hotDishCount coldDishCount params.historicalRatio
  let orig := originalDishCount hotDishCount coldDishCount params.historicalRatio
  narrativeSection hotDishCount coldDishCount params ++ "\n\n" ++
  rulesSection params ++ "\n\n" ++
  referenceSection ++ "\n\n" ++
  historySection historicalMenus hist ++ "\n\n" ++
  categorySection ++ "\n\n" ++
  spreadSection hist ++ "\n\n" ++
  checklistSection hotDishCount coldDishCount hist orig

/-! ## Substring occurrence counting (for the redundancy property) -/

/-- `pat` matches at the head of `s`. -/
def matchesAt : List Char → List Char → Bool
  | [], _ => true
  | _ :: _, [] => false
  | p :: ps, c :: cs => p == c && matchesAt ps cs

/-- Number of positions of `s` at which `pat` occurs as a substring. -/
def countOcc (pat : List Char) : List Char → Nat
  | [] => 0
  | c :: rest => (if matchesAt pat (c :: rest) then 1 else 0) + countOcc pat rest

/-- Substring occurrence count on strings. -/
def countOccStr (s pat : String) : Nat := countOcc pat.data s.data

/-! ## Generation Orchestrator: the retry loop of `POST` -/

/-- Result of one Generation Client call (`callDeepseekAPI`): a thrown transport
    failure, or the raw response text. -/
inductive ClientResult where
  | fail : ClientResult
  | ok : String → ClientResult

/-- The fixed attempt budget. -/
def maxAttempts : Nat := 3

/-- The loop `while (!weekMenu && attempts < maxAttempts)`: `attemptsSoFar` attempts
    already made, `rem` the remaining budget, a stubbed `client` giving the outcome of
    each numbered attempt.  Returns the final attempt counter, the final `weekMenu`,
    and the list of instruction strings sent (one per attempt made). -/
def genLoopAux (client : Nat → String → ClientResult) (prompt : String) :
    Nat → Nat → Nat × Option Json × List String
  | attemptsSoFar, 0 => (attemptsSoFar, none, [])
  | attemptsSoFar, Nat.succ rem =>
    let a := attemptsSoFar + 1
    match client a prompt with
    | ClientResult.fail =>
      let r := genLoopAux client prompt a rem
      (r.1, r.2.1, prompt :: r.2.2)
    | ClientResult.ok raw =>
      match parseMenuResponse raw with
      | some menu => (a, some menu, [prompt])
      | none =>
        let r := genLoopAux client prompt a rem
        (r.1, r.2.1, prompt :: r.2.2)

/-- The whole retry loop: `attempts = 0` on entry, budget `maxAttempts`. -/
def runGeneration (client : Nat → String → ClientResult) (prompt : String) :
    Nat × Option Json × List String :=
  genLoopAux client prompt 0 maxAttempts

/-- The outcome of attempt `k` in isolation: a parsed menu exactly when the client
    call succeeds at transport level and its raw text parses into a valid menu. -/
def attemptRes (client : Nat → String → ClientResult) (prompt : String) (k : Nat) :
    Option Json :=
  match client k prompt with
  | ClientResult.fail => none
  | ClientResult.ok raw => parseMenuResponse raw

/-! ## History Retention Manager and the endpoint contract -/

/-- A persisted `Menu` row (fields not consumed by the retention logic omitted). -/
structure MenuRecord where
  id : Nat
  weekMenu : Json

/-- `prisma.menu.deleteMany` with an id-set filter: every record whose id is in the
    set is removed from the store. -/
def deleteByIds (ids : List Nat) (l : List MenuRecord) : List MenuRecord :=
  l.filter (fun m => m.id ∉ ids)

/-- The retention step: `allMenus` is the account's records ordered newest-first
    (`orderBy createdAt desc`); when more than 4 exist, every record of
    `allMenus.slice(4)` is deleted. -/
def retentionTrim (allMenus : List MenuRecord) : List MenuRecord :=
  if 4 < allMenus.length then deleteByIds ((allMenus.drop 4).map MenuRecord.id) allMenus
  else allMenus

/-- What the endpoint returns to the caller: a menu plus the persisted record id, or
    the single opaque generation-failure error (`菜单生成失败，请稍后重试`). -/
inductive PostResult where
  | success : Json → Nat → PostResult
  | genFailed : PostResult

/-- The generation part of the `POST` handler, after authentication and the canteen
    fetch: compute the prompt once, before the loop; run the retry loop; on
    exhaustion return the opaque failure without touching the store; on success
    persist the record (the store is newest-first, so `create` prepends a record with
    the fresh id `newId`) and run the retention trim. -/
def postGenerate (client : Nat → String → ClientResult) (hotDishCount coldDishCount : Nat)
    (params : GenerationParams) (historicalMenus : List (List String))
    (store : List MenuRecord) (newId : Nat) : PostResult × List MenuRecord :=
  let prompt := buildPrompt hotDishCount coldDishCount params historicalMenus
  let r := runGeneration client prompt
  match r.2.1 with
  | none => (PostResult.genFailed, store)
  | some menu =>
    let store2 := { id := newId, weekMenu := menu : MenuRecord } :: store
    (PostResult.success menu newId, retentionTrim store2)

/-! ## Stubbed clients and concrete inputs used by the testable properties -/

/-- A raw response carrying a valid five-day payload. -/
def validRawResponse : String :=
  "\x7b\"monday\": [\"a(主荤)\"], \"tuesday\": [\"b(半荤)\"], \"wednesday\": [\"c(素菜)\"], \"thursday\": [\"d(凉菜)\"], \"friday\": [\"e(主荤)\"]\x7d"

/-- The decode of `validRawResponse`. -/
def stubMenu : Json :=
  Json.obj [("monday", Json.arr [Json.str "a(主荤)"]),
            ("tuesday", Json.arr [Json.str "b(半荤)"]),
            ("wednesday", Json.arr [Json.str "c(素菜)"]),
            ("thursday", Json.arr [Json.str "d(凉菜)"]),
            ("friday", Json.arr [Json.str "e(主荤)"])]

/-- A client that fails at transport level on attempts 1 and 2 and succeeds with
    valid output on attempt 3. -/
def stubFailTwice : Nat → String → ClientResult := fun n _ =>
  if n ≤ 2 then ClientResult.fail else ClientResult.ok validRawResponse

/-- A client that always fails at transport level. -/
def stubAlwaysFail : Nat → String → ClientResult := fun _ _ => ClientResult.fail

/-- A client that always answers with text carrying no structured payload. -/
def stubNoPayload : Nat → String → ClientResult := fun _ _ =>
  ClientResult.ok "抱歉，我无法生成菜单。"

/-- A well-formed five-key payload embedded inside surrounding prose. -/
def proseEmbedded : String :=
  "Here is your menu. \x7b\"monday\": [\"a\"], \"tuesday\": [\"b\"], \"wednesday\": [\"c\"], \"thursday\": [\"d\"], \"friday\": [\"e\"]\x7d Enjoy your meal."

/-- The decode of the payload inside `proseEmbedded`. -/
def proseEmbeddedMenu : Json :=
  Json.obj [("monday", Json.arr [Json.str "a"]),
            ("tuesday", Json.arr [Json.str "b"]),
            ("wednesday", Json.arr [Json.str "c"]),
            ("thursday", Json.arr [Json.str "d"]),
            ("friday", Json.arr [Json.str "e"])]

/-- A payload missing the `friday` key. -/
def missingDayExample : String :=
  "\x7b\"monday\": [\"a\"], \"tuesday\": [\"b\"], \"wednesday\": [\"c\"], \"thursday\": [\"d\"]\x7d"

/-- A payload whose `monday` value is a string rather than an array. -/
def stringDayExample : String :=
  "\x7b\"monday\": \"a\", \"tuesday\": [\"b\"], \"wednesday\": [\"c\"], \"thursday\": [\"d\"], \"friday\": [\"e\"]\x7d"

/-- A payload whose five day arrays are all empty. -/
def emptyArraysExample : String :=
  "\x7b\"monday\": [], \"tuesday\": [], \"wednesday\": [], \"thursday\": [], \"friday\": []\x7d"

/-- The decode of `emptyArraysExample`. -/
def emptyArraysMenu : Json :=
  Json.obj [("monday", Json.arr []), ("tuesday", Json.arr []), ("wednesday", Json.arr []),
            ("thursday", Json.arr []), ("friday", Json.arr [])]

/-- A payload with an extra sixth key and non-string day-array elements. -/
def extraKeyExample : String :=
  "\x7b\"monday\": [1, \x7b\"x\": true\x7d], \"tuesday\": [\"b\"], \"wednesday\": [], \"thursday\": [\"d\"], \"friday\": [\"e\"], \"note\": \"extra\"\x7d"

/-- The decode of `extraKeyExample`: the extra key and the non-string elements
    survive unchanged. -/
def extraKeyMenu : Json :=
  Json.obj [("monday", Json.arr [Json.num "1", Json.obj [("x", Json.bool true)]]),
            ("tuesday", Json.arr [Json.str "b"]),
            ("wednesday", Json.arr []),
            ("thursday", Json.arr [Json.str "d"]),
            ("friday", Json.arr [Json.str "e"]),
            ("note", Json.str "extra")]

/-- The end-to-end scenario parameters: `hotDishCount = 8`, `coldDishCount = 3`,
    `historicalRatioPercent = 30` (remaining fields arbitrary in-range values). -/
def scenarioParams : GenerationParams :=
  { mainMeatCount := 3, halfMeatCount := 3, vegetarianCount := 2,
    staffSituation := "scarce", historicalRatio := 30, equipmentShortage := [],
    spicyLevel := "none", flavorDiversity := true, workRatio := "无要求",
    ingredientDiversity := "无要求" }

/-- Four historical pools with 10 dishes each. -/
def scenarioPools : List (List String) :=
  List.replicate 4 (List.replicate 10 "示例菜")

/-- Six already-persisted records for the account, newest-first. -/
def sixExisting : List MenuRecord :=
  [{ id := 1, weekMenu := Json.null }, { id := 2, weekMenu := Json.null },
   { id := 3, weekMenu := Json.null }, { id := 4, weekMenu := Json.null },
   { id := 5, weekMenu := Json.null }, { id := 6, weekMenu := Json.null }]

/-- The record persisted for a new success. -/
def newRecord : MenuRecord := { id := 7, weekMenu := Json.null }

/-! ## Helper lemmas -/

/-- A menu returned by `parseMenuResponse` passed the five-day-keys check. -/
theorem parseMenuResponse_valid (content : String) (j : Json)
    (h : parseMenuResponse content = some j) : validWeekMenu j = true := by
  unfold parseMenuResponse at h
  split at h
  · exact absurd h (by simp)
  · split at h
    · exact absurd h (by simp)
    · split at h
      · rw [Option.some.injEq] at h
        subst h
        assumption
      · exact absurd h (by simp)

/-- A menu returned by `parseMenuResponse` is the decode of the extracted span,
    unchanged. -/
theorem parseMenuResponse_decode (content : String) (j : Json)
    (h : parseMenuResponse content = some j) :
    ∃ u, extractBraced content.data = some u ∧ jsonParse (String.mk u) = some j := by
  unfold parseMenuResponse at h
  split at h
  · exact absurd h (by simp)
  next u heq =>
    split at h
    · exact absurd h (by simp)
    next m hm =>
      split at h
      · rw [Option.some.injEq] at h
        subst h
        exact ⟨u, heq, hm⟩
      · exact absurd h (by simp)

/-- One unrolling of the retry loop in terms of the per-attempt outcome. -/
theorem genLoopAux_succ (client : Nat → String → ClientResult) (prompt : String)
    (a rem : Nat) :
    genLoopAux client prompt a (rem + 1) =
      match attemptRes client prompt (a + 1) with
      | some menu => (a + 1, some menu, [prompt])
      | none =>
        ((genLoopAux client prompt (a + 1) rem).1,
         (genLoopAux client prompt (a + 1) rem).2.1,
         prompt :: (genLoopAux client prompt (a + 1) rem).2.2) := by
  unfold attemptRes
  cases h : client (a + 1) prompt with
  | fail => simp [genLoopAux, h]
  | ok raw =>
    cases hp : parseMenuResponse raw with
    | none => simp [genLoopAux, h, hp]
    | some m => simp [genLoopAux, h, hp]

/-- The attempt counter never moves backwards. -/
theorem genLoopAux_counter_ge (client : Nat → String → ClientResult) (prompt : String) :
    ∀ rem a, a ≤ (genLoopAux client prompt a rem).1 := by
  intro rem
  induction rem with
  | zero => intro a; simp [genLoopAux]
  | succ n ih =>
    intro a
    rw [genLoopAux_succ]
    cases h : attemptRes client prompt (a + 1) with
    | some m => simp
    | none =>
      have := ih (a + 1)
      simp
      omega

/-- The attempt counter never exceeds the remaining budget. -/
theorem genLoopAux_counter_le (client : Nat → String → ClientResult) (prompt : String) :
    ∀ rem a, (genLoopAux client prompt a rem).1 ≤ a + rem := by
  intro rem
  induction rem with
  | zero => intro a; simp [genLoopAux]
  | succ n ih =>
    intro a
    rw [genLoopAux_succ]
    cases h : attemptRes client prompt (a + 1) with
    | some m => simp
    | none =>
      have := ih (a + 1)
      simp
      omega

/-- The loop sends `prompt` once per attempt made. -/
theorem genLoopAux_trace (client : Nat → String → ClientResult) (prompt : String) :
    ∀ rem a, (genLoopAux client prompt a rem).2.2 =
      List.replicate ((genLoopAux client prompt a rem).1 - a) prompt := by
  intro rem
  induction rem with
  | zero => intro a; simp [genLoopAux]
  | succ n ih =>
    intro a
    rw [genLoopAux_succ]
    cases h : attemptRes client prompt (a + 1) with
    | some m => simp [List.replicate]
    | none =>
      have hge := genLoopAux_counter_ge client prompt n (a + 1)
      have htr := ih (a + 1)
      simp only []
      rw [htr]
      have hstep : (genLoopAux client prompt (a + 1) n).1 - a =
          ((genLoopAux client prompt (a + 1) n).1 - (a + 1)) + 1 := by omega
      rw [hstep, List.replicate_succ]

/-- When the loop ends with a menu, the final attempt produced exactly that menu. -/
theorem genLoopAux_some (client : Nat → String → ClientResult) (prompt : String) :
    ∀ rem a m, (genLoopAux client prompt a rem).2.1 = some m →
      attemptRes client prompt (genLoopAux client prompt a rem).1 = some m := by
  intro rem
  induction rem with
  | zero => intro a m h; simp [genLoopAux] at h
  | succ n ih =>
    intro a m h
    rw [genLoopAux_succ] at h ⊢
    cases hk : attemptRes client prompt (a + 1) with
    | some m0 =>
      rw [hk] at h
      simp at h ⊢
      rw [← h]
      exact hk
    | none =>
      rw [hk] at h
      simp at h ⊢
      exact ih (a + 1) m h

/-- When the loop ends without a menu, the budget is fully consumed and every
    attempt in the window failed. -/
theorem genLoopAux_none (client : Nat → String → ClientResult) (prompt : String) :
    ∀ rem a, (genLoopAux client prompt a rem).2.1 = none →
      (genLoopAux client prompt a rem).1 = a + rem ∧
      (∀ k, a < k → k ≤ a + rem → attemptRes client prompt k = none) := by
  intro rem
  induction rem with
  | zero =>
    intro a h
    refine ⟨by simp [genLoopAux], ?_⟩
    intro k hk1 hk2
    omega
  | succ n ih =>
    intro a h
    rw [genLoopAux_succ] at h ⊢
    cases hk : attemptRes client prompt (a + 1) with
    | some m0 => rw [hk] at h; simp at h
    | none =>
      rw [hk] at h
      simp at h ⊢
      obtain ⟨h1, h2⟩ := ih (a + 1) h
      refine ⟨by omega, ?_⟩
      intro k hk1 hk2
      by_cases hke : k = a + 1
      · rw [hke]; exact hk
      · exact h2 k (by omega) (by omega)

/-- No attempt strictly before the final one produced a menu. -/
theorem genLoopAux_before (client : Nat → String → ClientResult) (prompt : String) :
    ∀ rem a k, a < k → k < (genLoopAux client prompt a rem).1 →
      attemptRes client prompt k = none := by
  intro rem
  induction rem with
  | zero =>
    intro a k hk1 hk2
    simp [genLoopAux] at hk2
    omega
  | succ n ih =>
    intro a k hk1 hk2
    rw [genLoopAux_succ] at hk2
    cases hc : attemptRes client prompt (a + 1) with
    | some m0 => rw [hc] at hk2; simp at hk2; omega
    | none =>
      rw [hc] at hk2
      simp at hk2
      by_cases hke : k = a + 1
      · rw [hke]; exact hc
      · exact ih (a + 1) k (by omega) hk2

/-- A menu coming out of the whole retry loop passed the validator. -/
theorem runGeneration_some_valid (client : Nat → String → ClientResult) (prompt : String)
    (m : Json) (h : (runGeneration client prompt).2.1 = some m) :
    validWeekMenu m = true := by
  have h2 := genLoopAux_some client prompt maxAttempts 0 m h
  unfold attemptRes at h2
  cases hc : client (genLoopAux client prompt 0 maxAttempts).1 prompt with
  | fail => rw [hc] at h2; exact absurd h2 (by simp)
  | ok raw =>
    rw [hc] at h2
    exact parseMenuResponse_valid raw m h2

/-- `Math.round` (half up) agrees with round half away from zero on every
    non-negative input. -/
theorem mathRound_eq_roundHalfAway (num den : Nat) (hden : 0 < den) :
    mathRound num den = roundHalfAwayFromZero num den := by
  have hmod := Nat.div_add_mod num den
  have hr : num % den < den := Nat.mod_lt _ hden
  unfold mathRound roundHalfAwayFromZero
  have h2 : 2 * num + den = (2 * (num % den) + den) + 2 * den * (num / den) := by
    rw [mul_assoc]
    omega
  rw [h2, Nat.add_mul_div_left _ _ (by omega : 0 < 2 * den)]
  by_cases hle : den ≤ 2 * (num % den)
  · have h1 : (2 * (num % den) + den) / (2 * den) = 1 := by
      apply Nat.div_eq_of_lt_le
      · omega
      · omega
    rw [h1]
    simp [hle]
    omega
  · have h1 : (2 * (num % den) + den) / (2 * den) = 0 := Nat.div_eq_of_lt (by omega)
    rw [h1]
    simp [hle]

/-- With pairwise-distinct record ids and more than 4 records, the retention step
    keeps exactly the first 4 records of the newest-first ordering. -/
theorem retentionTrim_eq_take (l : List MenuRecord)
    (hn : (l.map MenuRecord.id).Nodup) (hl : 4 < l.length) :
    retentionTrim l = l.take 4 := by
  have hsplit : l.take 4 ++ l.drop 4 = l := List.take_append_drop 4 l
  have hnd : ((l.take 4).map MenuRecord.id).Disjoint ((l.drop 4).map MenuRecord.id) := by
    have h0 := hn
    rw [← hsplit, List.map_append] at h0
    exact List.disjoint_of_nodup_append h0
  have h1 : (l.take 4).filter (fun m => m.id ∉ (l.drop 4).map MenuRecord.id) = l.take 4 := by
    apply List.filter_eq_self.mpr
    intro m hm
    rw [decide_eq_true_eq]
    intro hmem
    exact hnd (List.mem_map_of_mem MenuRecord.id hm) hmem
  have h2 : (l.drop 4).filter (fun m => m.id ∉ (l.drop 4).map MenuRecord.id) = [] := by
    apply List.filter_eq_nil_iff.mpr
    intro m hm
    simp only [decide_eq_true_eq, not_not]
    exact List.mem_map_of_mem MenuRecord.id hm
  unfold retentionTrim deleteByIds
  rw [if_pos hl]
  calc l.filter (fun m => m.id ∉ (l.drop 4).map MenuRecord.id)
      = (l.take 4 ++ l.drop 4).filter (fun m => m.id ∉ (l.drop 4).map MenuRecord.id) := by
        rw [hsplit]
    _ = l.take 4 := by rw [List.filter_append, h1, h2, List.append_nil]

/-- Running the retention step twice deletes nothing further. -/
theorem retentionTrim_idem (l : List MenuRecord)
    (hn : (l.map MenuRecord.id).Nodup) :
    retentionTrim (retentionTrim l) = retentionTrim l := by
  by_cases h : 4 < l.length
  · rw [retentionTrim_eq_take l hn h]
    unfold retentionTrim
    rw [if_neg (by simp [List.length_take])]
  · have he : retentionTrim l = l := by unfold retentionTrim; rw [if_neg h]
    rw [he, he]

/-! ## Claims -/

/-- C5: for every valid input (`hotDishCount ≥ 1`, `coldDishCount ≥ 1`,
    `historicalRatioPercent` an integer in `[0, 100]`) the Quota Calculator satisfies
    `historicalDishCount + originalDishCount = (hot + cold) * 5` and
    `historicalDishCount ≤ totalDishesPerWeek` (the lower bound `0 ≤` is inherent to
    the `Nat` embedding); `pct = 0` yields `historicalDishCount = 0` and `pct = 100`
    yields `historicalDishCount = totalDishesPerWeek`. -/
theorem quota_invariant (hot cold pct : Nat)
    (_hh : 1 ≤ hot) (_hc : 1 ≤ cold) (hp : pct ≤ 100) :
    historicalDishCount hot cold pct + originalDishCount hot cold pct
        = totalDishesPerWeek hot cold ∧
    historicalDishCount hot cold pct ≤ totalDishesPerWeek hot cold ∧
    historicalDishCount hot cold 0 = 0 ∧
    historicalDishCount hot cold 100 = totalDishesPerWeek hot cold := by
  have hle : historicalDishCount hot cold pct ≤ totalDishesPerWeek hot cold := by
    unfold historicalDishCount mathRound
    have hm : totalDishesPerWeek hot cold * pct ≤ totalDishesPerWeek hot cold * 100 :=
      Nat.mul_le_mul_left _ hp
    omega
  refine ⟨?_, hle, ?_, ?_⟩
  · unfold originalDishCount
    omega
  · unfold historicalDishCount mathRound
    omega
  · unfold historicalDishCount mathRound
    omega

/-- Witness for `quota_invariant`, at the literal input (8, 3, 30). -/
theorem quota_invariant_witness :
    historicalDishCount 8 3 30 + originalDishCount 8 3 30 = totalDishesPerWeek 8 3 :=
  (quota_invariant 8 3 30 (by decide) (by decide) (by decide)).1

/-- C6: the Quota Calculator rounds `historicalDishCount` via `Math.round`, which on
    all non-negative inputs coincides with the single round-half-away-from-zero rule;
    concretely (8, 3, 30) gives total 55, historical = round(16.5) = round(1650/100)
    = 17, original = 55 - 17 = 38. -/
theorem quota_rounding_rule :
    (∀ num den, 0 < den → mathRound num den = roundHalfAwayFromZero num den) ∧
    (∀ hot cold pct, historicalDishCount hot cold pct =
        roundHalfAwayFromZero (totalDishesPerWeek hot cold * pct) 100) ∧
    totalDishesPerWeek 8 3 = 55 ∧
    roundHalfAwayFromZero 1650 100 = 17 ∧
    historicalDishCount 8 3 30 = 17 ∧
    originalDishCount 8 3 30 = 38 :=
  ⟨fun num den h => mathRound_eq_roundHalfAway num den h,
   fun _ _ _ => mathRound_eq_roundHalfAway _ 100 (by decide),
   by decide, by decide, by decide, by decide⟩

/-- Witness for `quota_rounding_rule`, at the literal input 1650 / 100 = 16.5. -/
theorem quota_rounding_rule_witness :
    mathRound 1650 100 = roundHalfAwayFromZero 1650 100 :=
  quota_rounding_rule.1 1650 100 (by decide)

/-- C2 counterexample: the Constraint Mapper does not raise a configuration error on
    an unknown enumerated value and does not fail fast.  An unknown
    equipment-shortage value is silently dropped (`filter(Boolean)`): the composed
    requirement with the unknown value `外星锅` present is identical to the one
    without it.  An unknown staffing value reads as `undefined` and is interpolated
    into the requirement text as the string "undefined".  In both cases `buildPrompt`
    returns normally and the external generation call proceeds. -/
theorem constraintMapper_unknown_counterexample :
    equipmentRequirement ["蒸屉", "外星锅"] = equipmentRequirement ["蒸屉"] ∧
    jsInterp (lookupStr staffMapping "manager") = "undefined" := by
  exact ⟨rfl, rfl⟩

/-- C2 amended: when the Constraint Mapper receives an unknown enumerated constraint
    value, no configuration error is raised and composition proceeds: an unknown
    equipment-shortage value is silently dropped from the joined requirement
    fragments, and an unknown staffing / spice / ingredient-diversity / work-ratio
    value makes the category lookup `undefined`, so its requirement line becomes the
    literal text "undefined". -/
theorem constraintMapper_unknown_behavior :
    (∀ pre post item, lookupStr equipmentMapping item = none →
        equipmentFragments (pre ++ item :: post) = equipmentFragments (pre ++ post)) ∧
    (∀ v, lookupStr staffMapping v = none →
        jsInterp (lookupStr staffMapping v) = "undefined") ∧
    (∀ v, lookupStr spicyMapping v = none →
        jsInterp (lookupStr spicyMapping v) = "undefined") ∧
    (∀ v, lookupStr ingredientMapping v = none →
        jsInterp (lookupStr ingredientMapping v) = "undefined") ∧
    (∀ v, lookupStr workRatioMapping v = none →
        jsInterp (lookupStr workRatioMapping v) = "undefined") := by
  refine ⟨?_, ?_, ?_, ?_, ?_⟩
  · intro pre post item h
    unfold equipmentFragments
    simp [List.filterMap_append, List.filterMap_cons, h]
  · intro v h; rw [h]; rfl
  · intro v h; rw [h]; rfl
  · intro v h; rw [h]; rfl
  · intro v h; rw [h]; rfl

/-- Witness for `constraintMapper_unknown_behavior`: the unknown value `外星锅` is
    dropped from the mapped equipment fragments. -/
theorem constraintMapper_unknown_witness :
    equipmentFragments (["蒸屉"] ++ "外星锅" :: []) = equipmentFragments (["蒸屉"] ++ []) :=
  constraintMapper_unknown_behavior.1 ["蒸屉"] [] "外星锅" rfl

/-- C4: after a successful generation is persisted, the History Retention Manager
    fetches all records newest-first and, whenever the count exceeds 4, deletes every
    record beyond the 4th by that ordering, so only the 4 most recent (including the
    new one) remain; an immediate second run deletes nothing further (idempotence).
    Stated for stores with pairwise-distinct record ids, and instantiated on the
    6-existing-records-plus-new-success scenario. -/
theorem retention_policy :
    (∀ l : List MenuRecord, (l.map MenuRecord.id).Nodup → 4 < l.length →
        retentionTrim l = l.take 4) ∧
    (∀ l : List MenuRecord, l.length ≤ 4 → retentionTrim l = l) ∧
    (∀ l : List MenuRecord, (l.map MenuRecord.id).Nodup →
        retentionTrim (retentionTrim l) = retentionTrim l) ∧
    retentionTrim (newRecord :: sixExisting) = newRecord :: sixExisting.take 3 ∧
    retentionTrim (retentionTrim (newRecord :: sixExisting))
      = retentionTrim (newRecord :: sixExisting) := by
  refine ⟨fun l hn hl => retentionTrim_eq_take l hn hl, ?_,
          fun l hn => retentionTrim_idem l hn, ?_, ?_⟩
  · intro l hl
    unfold retentionTrim
    rw [if_neg (by omega)]
  · rfl
  · rfl

/-- Witness for `retention_policy`: the trim of the seven-record scenario store. -/
theorem retention_policy_witness :
    retentionTrim (newRecord :: sixExisting) = (newRecord :: sixExisting).take 4 :=
  retention_policy.1 (newRecord :: sixExisting) (by decide) (by decide)

/-- C3: the generation endpoint returns either a validated `WeekMenu` together with
    the persisted record identifier, or the single opaque generation-failure error
    after exhausting attempts; no partial or garbage menu is ever surfaced (a
    surfaced menu passed the validator), and on `Exhausted` the store is untouched —
    persistence (followed by the retention trim) happens only on success. -/
theorem endpoint_result_contract :
    ∀ (client : Nat → String → ClientResult) (hot cold : Nat) (params : GenerationParams)
      (menus : List (List String)) (store : List MenuRecord) (newId : Nat),
      postGenerate client hot cold params menus store newId
          = (PostResult.genFailed, store) ∨
      ∃ menu, validWeekMenu menu = true ∧
        postGenerate client hot cold params menus store newId
          = (PostResult.success menu newId,
             retentionTrim ({ id := newId, weekMenu := menu : MenuRecord } :: store)) := by
  intro client hot cold params menus store newId
  unfold postGenerate
  cases h : (runGeneration client (buildPrompt hot cold params menus)).2.1 with
  | none =>
    left
    simp only [h]
  | some menu =>
    right
    exact ⟨menu, runGeneration_some_valid _ _ _ h, by simp only [h]⟩

/-- C9: within a single generation request the instruction string is computed once,
    before the retry loop, from request-scoped data only (`postGenerate` computes
    `buildPrompt` once, ahead of `runGeneration`), and every attempt — first and
    retries — sends the identical instruction string: the trace of sent instructions
    is the initial prompt replicated once per attempt made. -/
theorem instruction_fixed_across_attempts :
    (∀ client prompt, (runGeneration client prompt).2.2 =
        List.replicate (runGeneration client prompt).1 prompt) ∧
    (∀ (client : Nat → String → ClientResult) (hot cold : Nat)
       (params : GenerationParams) (menus : List (List String)),
        ((runGeneration client (buildPrompt hot cold params menus)).2.2).all
          (fun s => s == buildPrompt hot cold params menus) = true) := by
  have key : ∀ client prompt, (runGeneration client prompt).2.2 =
      List.replicate (runGeneration client prompt).1 prompt := by
    intro client prompt
    have h := genLoopAux_trace client prompt maxAttempts 0
    simpa using h
  refine ⟨key, ?_⟩
  intro client hot cold params menus
  rw [key]
  simp [List.all_eq_true, List.mem_replicate]

/-- C1: the Orchestrator uses the fixed attempt budget `maxAttempts = 3`, shared by
    transport failures and parse failures, and stops at the first attempt whose raw
    text parses into a valid `WeekMenu`: the final counter never exceeds 3;
    exhaustion means every one of the 3 attempts failed; a returned menu was produced
    by the final attempt with every earlier attempt failing.  The stub that fails
    transport twice then succeeds with valid output ends `Succeeded` having made
    exactly 3 attempts; the always-failing stub (and likewise a stub whose text never
    parses, consuming the same shared budget) ends `Exhausted` after exactly 3
    attempts, never fewer or more. -/
theorem orchestrator_attempt_budget :
    maxAttempts = 3 ∧
    (∀ p, runGeneration stubFailTwice p = (3, some stubMenu, [p, p, p])) ∧
    (∀ p, runGeneration stubAlwaysFail p = (3, none, [p, p, p])) ∧
    (∀ p, runGeneration stubNoPayload p = (3, none, [p, p, p])) ∧
    (∀ client p,
      (runGeneration client p).1 ≤ maxAttempts ∧
      ((runGeneration client p).2.1 = none →
        (runGeneration client p).1 = maxAttempts ∧
        ∀ k, 1 ≤ k → k ≤ maxAttempts → attemptRes client p k = none) ∧
      (∀ m, (runGeneration client p).2.1 = some m →
        attemptRes client p (runGeneration client p).1 = some m ∧
        ∀ k, 1 ≤ k → k < (runGeneration client p).1 → attemptRes client p k = none)) := by
  refine ⟨rfl, fun p => rfl, fun p => rfl, fun p => rfl, ?_⟩
  intro client p
  refine ⟨?_, ?_, ?_⟩
  · have h := genLoopAux_counter_le client p maxAttempts 0
    simpa [runGeneration] using h
  · intro h
    obtain ⟨h1, h2⟩ := genLoopAux_none client p maxAttempts 0 h
    exact ⟨by simpa using h1, fun k hk1 hk2 => h2 k (by omega) (by omega)⟩
  · intro m h
    refine ⟨genLoopAux_some client p maxAttempts 0 m h, ?_⟩
    intro k hk1 hk2
    exact genLoopAux_before client p maxAttempts 0 k (by omega) hk2

/-- Witness for `orchestrator_attempt_budget`: its exhaustion clause applied to the
    always-failing stub shows the first attempt already failed. -/
theorem orchestrator_attempt_budget_witness :
    attemptRes stubAlwaysFail "x" 1 = none :=
  ((orchestrator_attempt_budget.2.2.2.2 stubAlwaysFail "x").2.1 rfl).2 1
    (by decide) (by decide)

/-- C7: the Response Validator, given raw text, extracts the substring from the
    first opening brace to the last closing brace, decodes it, and returns a
    `WeekMenu` exactly when all five day keys `monday..friday` are present and each
    maps to an array: every returned menu has the five day keys array-valued and is
    the unchanged decode of the extracted span; a well-formed five-key array-valued
    payload embedded inside surrounding prose is accepted; a payload missing one day
    key, or with one day value a string rather than an array, is rejected with a
    `none` result (the source catches its internal throw and returns null — no
    exception escapes); empty-but-present day arrays are accepted. -/
theorem response_validator_contract :
    (∀ content j, parseMenuResponse content = some j →
        validWeekMenu j = true ∧
        ∀ d, d ∈ weekDays → ∃ items, jget j d = some (Json.arr items)) ∧
    (∀ content j, parseMenuResponse content = some j →
        ∃ u, extractBraced content.data = some u ∧ jsonParse (String.mk u) = some j) ∧
    parseMenuResponse proseEmbedded = some proseEmbeddedMenu ∧
    parseMenuResponse missingDayExample = none ∧
    parseMenuResponse stringDayExample = none ∧
    parseMenuResponse emptyArraysExample = some emptyArraysMenu := by
  refine ⟨?_, fun content j h => parseMenuResponse_decode content j h, rfl, rfl, rfl, rfl⟩
  intro content j h
  have hv := parseMenuResponse_valid content j h
  refine ⟨hv, ?_⟩
  intro d hd
  unfold validWeekMenu at hv
  have hday := (List.all_eq_true.mp hv) d hd
  unfold dayIsArray at hday
  cases hj : jget j d with
  | none => rw [hj] at hday; exact absurd hday (by simp)
  | some v =>
    rw [hj] at hday
    cases v with
    | null => simp at hday
    | bool b => simp at hday
    | num s => simp at hday
    | str s => simp at hday
    | arr items => exact ⟨items, rfl⟩
    | obj kvs => simp at hday

/-- Witness for `response_validator_contract`: its validity clause applied to the
    accepted empty-arrays payload. -/
theorem response_validator_contract_witness :
    validWeekMenu emptyArraysMenu = true ∧
    ∀ d, d ∈ weekDays → ∃ items, jget emptyArraysMenu d = some (Json.arr items) :=
  response_validator_contract.1 emptyArraysExample emptyArraysMenu rfl

/-- C10: for raw text whose extracted payload decodes to an object with the five day
    keys each array-valued, the Validator returns the decoded object unchanged: keys
    beyond the five day keys are preserved in the returned menu, and the elements of
    the day arrays are not checked to be strings — a day array containing a number
    and a nested object is accepted. -/
theorem validator_passthrough :
    (∀ content j, parseMenuResponse content = some j →
        ∃ u, extractBraced content.data = some u ∧ jsonParse (String.mk u) = some j) ∧
    parseMenuResponse extraKeyExample = some extraKeyMenu ∧
    jget extraKeyMenu "note" = some (Json.str "extra") ∧
    jget extraKeyMenu "monday" = some (Json.arr [Json.num "1", Json.obj [("x", Json.bool true)]]) :=
  ⟨fun content j h => parseMenuResponse_decode content j h, rfl, rfl, rfl⟩

/-- Witness for `validator_passthrough`: its passthrough clause applied to the
    extra-key payload. -/
theorem validator_passthrough_witness :
    ∃ u, extractBraced extraKeyExample.data = some u ∧
         jsonParse (String.mk u) = some extraKeyMenu :=
  validator_passthrough.1 extraKeyExample extraKeyMenu rfl

/-- C8 counterexample: in the `(8, 3, 30)` scenario, the checklist
    (output-requirements) section of the composed instruction does not contain the
    literal total `55` at all, so the claim that it appears exactly once in that
    section fails (the total appears only in the narrative section). -/
theorem composer_checklist_counterexample :
    countOccStr
      (checklistSection 8 3 (historicalDishCount 8 3 30) (originalDishCount 8 3 30))
      (toString (totalDishesPerWeek 8 3)) = 0 := by
  decide

/-- C8 amended: in the scenario `hotDishCount = 8, coldDishCount = 3,
    historicalRatioPercent = 30` with 4 historical pools of 10 dishes each, the
    Instruction Composer output is the concatenation of its template sections, and
    the computed historical count (17) and the computed original count (38) appear
    exactly once each in the checklist (output-requirements) section and at least
    once each in the narrative section; the literal number 55 appears exactly once in
    the narrative section but zero times in the checklist section. -/
theorem composer_redundancy_amended :
    buildPrompt 8 3 scenarioParams scenarioPools =
      narrativeSection 8 3 scenarioParams ++ "\n\n" ++ rulesSection scenarioParams ++
      "\n\n" ++ referenceSection ++ "\n\n" ++ historySection scenarioPools 17 ++
      "\n\n" ++ categorySection ++ "\n\n" ++ spreadSection 17 ++ "\n\n" ++
      checklistSection 8 3 17 38 ∧
    toString (totalDishesPerWeek 8 3) = "55" ∧
    toString (historicalDishCount 8 3 30) = "17" ∧
    toString (originalDishCount 8 3 30) = "38" ∧
    countOccStr (checklistSection 8 3 17 38) "17" = 1 ∧
    countOccStr (checklistSection 8 3 17 38) "38" = 1 ∧
    countOccStr (checklistSection 8 3 17 38) "55" = 0 ∧
    countOccStr (narrativeSection 8 3 scenarioParams) "55" = 1 ∧
    countOccStr (narrativeSection 8 3 scenarioParams) "17" = 2 ∧
    countOccStr (narrativeSection 8 3 scenarioParams) "38" = 1 ∧
    scenarioPools.length = 4 ∧
    scenarioPools.all (fun pool => 10 ≤ pool.length) = true := by
  refine ⟨rfl, by decide, by decide, by decide, by decide, by decide, by decide,
          by decide, by decide, by decide, by decide, by decide⟩

end AiMenu
